import Mathlib

/-!
Verification of the Greenly access-control middleware
(`server/lib/authentication.js`: the JWT-validating `check` middleware, and
the authorization `check` middleware with its route table and per-resource
rules).

Modelling conventions of the shallow embedding:
* JS user objects become the `User` structure; `user.type` is the Prisma
  enum string (`"CONSUMER"`, `"SUPPLIER"`, `"TRANSPORTER"`, `"ADMINISTRATOR"`).
* The string tags of the route table (`"ALL_USERS"`, ...) form a closed set
  and are embedded as the enumeration `ResourceKind`; the JS `switch` over
  those strings becomes a `match` over the enumeration.
* Route parameters (`req.params.*`) are strings in Express that the code
  compares to numbers with loose equality (`==`) or converts via `Number`;
  they are modelled by their numeric values as `Int`.
* `req.body.type` is modelled as `Option String`: `hasOwnProperty('type')`
  is `isSome`, and the loose comparison `req.body.type == "ADMINISTRATOR"`
  is equality with `some "ADMINISTRATOR"` (an absent field compares false).
* A rejected promise from a collaborator, and a TypeError from accessing a
  property of `undefined`, surface as `Except.error` (the async middleware
  has no try/catch around its awaits, so such a failure propagates out of
  the middleware as a rejected promise).
* Sending an HTTP response and calling `next()` are terminal observable
  outcomes, captured by `CheckResult`.
* Calls to the persistence relationship oracle are recorded in an explicit
  trace (`List OracleCall`) so that sequencing/short-circuit properties can
  be stated.
-/

/-- A JavaScript runtime failure escaping the middleware as a rejected
promise: either a TypeError (property access on `undefined`, i.e. on an
absent `req.user`) or a failure of an awaited collaborator call. -/
inductive JsError where
  | typeError : JsError
  | collabFailure : String → JsError
  deriving DecidableEq, Repr

/-- An address record as it appears in `req.user.Address`; only the `id`
field is consulted by the authorization code. -/
structure Address where
  id : Int
  deriving DecidableEq, Repr

/-- A user record as returned by `getUserByID` and attached to `req.user`:
numeric id, Prisma `User_type` enum value as a string, and the list of the
user's addresses. -/
structure User where
  id : Int
  type : String
  Address : List Address
  deriving DecidableEq, Repr

/-- The `req.params` object, flattened: each field holds the numeric value of the
corresponding route parameter for routes that bind it. -/
structure Params where
  userId : Int
  addressId : Int
  orderId : Int
  itemId : Int
  deriving DecidableEq, Repr

/-- The `req.body` object, restricted to the one field the authorization code reads:
`type` is `some v` when the body has an own property `type` with value `v`,
`none` when the field is absent. -/
structure Body where
  type : Option String
  deriving DecidableEq, Repr

/-- The request as seen by the authorization middleware: HTTP method,
`req.baseUrl` and `req.route.path` (concatenated to form the incoming
route), route parameters, body, and the identity attached by any earlier
authentication middleware (`none` when no identity was attached). -/
structure Request where
  method : String
  baseUrl : String
  routePath : String
  params : Params
  body : Body
  user : Option User
  deriving DecidableEq, Repr

/-- The decoded `token.user` object produced by the JWT strategy. -/
structure TokenUser where
  id : Int
  deriving DecidableEq, Repr

/-- Collaborator environment of the authentication `check` middleware:
the JWT validation outcome (`none` models `err || !tokenUser`) and the
`getUserByID` lookup of the identity store (`Except.error` models a thrown
exception, `Except.ok none` a user not found). -/
structure AuthEnv where
  tokenUser : Option TokenUser
  getUserByID : Int → Except JsError (Option User)

/-- Observable outcome of the authentication `check` middleware. -/
inductive AuthOutcome where
  | success : User → AuthOutcome
  | unauthorized : AuthOutcome
  | serverError : AuthOutcome
  deriving Repr

namespace Authentication

/-- Embedding of the authentication `check` middleware
(`server/lib/authentication.js`): validates the JWT (failure or missing
token user sends the 401 body and stops), then retrieves the user by id;
a throwing lookup is caught and answered with 500 `defaultErr()`; a
missing user sends 401; otherwise `req.user` is set to the retrieved user
and `next()` is called. -/
def check (env : AuthEnv) : AuthOutcome :=
  match env.tokenUser with
  | none => .unauthorized
  | some tokenUser =>
    match env.getUserByID tokenUser.id with
    | .error _ => .serverError
    | .ok none => .unauthorized
    | .ok (some retrievedUser) => .success retrievedUser

end Authentication

/-- One recorded call to the persistence relationship oracle, with the
arguments the authorization code passes (`req.user`, and the relevant
route parameters). -/
inductive OracleCall where
  | order : Option User → Int → OracleCall
  | item : Option User → Int → Int → OracleCall
  deriving DecidableEq, Repr

/-- The persistence relationship oracle consulted by the authorization
middleware; both queries are awaited promises, so each may fail
(`Except.error`). -/
structure Persistence where
  checkUserOrderRelationship : Option User → Int → Except JsError Bool
  checkUserItemRelationship : Option User → Int → Int → Except JsError Bool

/-- Observable outcome of the authorization `check` middleware. -/
inductive CheckResult where
  /-- Outcome where `next()` was called; the argument is the final value of `req.user`. -/
  | nextCalled : Option User → CheckResult
  /-- The authorization middleware itself sent a rejection
  (`res.status(status).send(\x7bmessage: body\x7d)`). -/
  | denied : (status : Nat) → (body : String) → CheckResult
  /-- The nested authentication `check` sent a rejection with this status
  and body; its callback is never invoked, so the authorization promise
  never resolves and `next()` is never called. -/
  | authFailure : (status : Nat) → (body : String) → CheckResult
  /-- The nested authentication `check` answered 500 with `defaultErr()`;
  the authorization promise never resolves. -/
  | authServerError : CheckResult
  deriving DecidableEq, Repr

instance {ε α : Type} [DecidableEq ε] [DecidableEq α] : DecidableEq (Except ε α) := fun x y =>
  match x, y with
  | .error a, .error b =>
    if h : a = b then isTrue (by rw [h]) else isFalse (fun he => by cases he; exact h rfl)
  | .ok a, .ok b =>
    if h : a = b then isTrue (by rw [h]) else isFalse (fun he => by cases he; exact h rfl)
  | .error _, .ok _ => isFalse (fun he => by cases he)
  | .ok _, .error _ => isFalse (fun he => by cases he)

/-- The one message body ever sent by the authorization middleware's own
rejection (line 419 of the source). -/
def deniedMessage : String := "Insufficient permissions for specified resource."

/-- The 401 body sent by the authentication middleware. -/
def unauthorizedMessage : String := "Invalid token. Unauthorized access."

/-- The `isAdministrator` helper of the authorization middleware. -/
def isAdministrator (user : User) : Bool := user.type == "ADMINISTRATOR"

/-- The `isConsumer` helper of the authorization middleware. -/
def isConsumer (user : User) : Bool := user.type == "CONSUMER"

/-- The closed set of resource-kind string tags of the route table,
embedded as an enumeration. -/
inductive ResourceKind where
  | ALL_USERS | SINGLE_USER | ALL_ADDRESSES | SINGLE_ADDRESS
  | ALL_NOTIFICATIONS | SINGLE_NOTIFICATION | ALL_USER_ORDERS
  | SINGLE_PRODUCT | ALL_ORDERS | SINGLE_ORDER | SINGLE_ORDER_ITEM
  | ALL_CATEGORIES | SINGLE_CATEGORY | ALL_CART_ITEMS | SINGLE_CART_ITEM
  | ALL_WISHLIST_ITEMS | SINGLE_WISHLIST_ITEM
  deriving DecidableEq, Repr

/-- The static route table of the authorization middleware, mapping a
route template to its resource-kind tag; unknown templates map to `none`
(the JS object lookup yields `undefined`). -/
def resourceIdentification (route : String) : Option ResourceKind :=
  [("/user/",                                       ResourceKind.ALL_USERS),
   ("/user/:userId",                                ResourceKind.SINGLE_USER),
   ("/user/:userId/addresses",                      ResourceKind.ALL_ADDRESSES),
   ("/user/:userId/addresses/:addressId",           ResourceKind.SINGLE_ADDRESS),
   ("/user/:userId/notifications",                  ResourceKind.ALL_NOTIFICATIONS),
   ("/user/:userId/notifications/:notificationId",  ResourceKind.SINGLE_NOTIFICATION),
   ("/user/:userId/orders",                         ResourceKind.ALL_USER_ORDERS),
   ("/store/products/:productId",                   ResourceKind.SINGLE_PRODUCT),
   ("/store/orders",                                ResourceKind.ALL_ORDERS),
   ("/store/orders/:orderId",                       ResourceKind.SINGLE_ORDER),
   ("/store/orders/:orderId/:itemId",               ResourceKind.SINGLE_ORDER_ITEM),
   ("/store/categories",                            ResourceKind.ALL_CATEGORIES),
   ("/store/categories/:categoryId",                ResourceKind.SINGLE_CATEGORY),
   ("/user/:userId/cart",                           ResourceKind.ALL_CART_ITEMS),
   ("/user/:userId/cart/:index",                    ResourceKind.SINGLE_CART_ITEM),
   ("/user/:userId/wishlist",                       ResourceKind.ALL_WISHLIST_ITEMS),
   ("/user/:userId/wishlist/:productId",            ResourceKind.SINGLE_WISHLIST_ITEM)].lookup
    route

namespace Authorization

/-- Embedding of the authorization `check` middleware
(`server/lib/authentication.js`, authorization part): the switch over the
classified resource kind, each case inlining the rule of the source; the
`default` case (reached for `SINGLE_PRODUCT`, which has no case, and for
routes not in the table) falls through to the 403 rejection.
Returns the observable outcome together with the trace of relationship
oracle calls made, or `Except.error` when the middleware's promise rejects
(TypeError on an absent `req.user`, or a failed awaited oracle call). -/
def check (persistence : Persistence) (env : AuthEnv) (req : Request) :
    Except JsError CheckResult × List OracleCall :=
  let intent := req.method
  let incomingRoute := req.baseUrl ++ req.routePath
  match resourceIdentification incomingRoute with
  | some ResourceKind.ALL_USERS =>
    -- Special situation in which a new administrator is being created
    if intent = "POST" then
      if req.body.type = some "ADMINISTRATOR" then
        match Authentication.check env with
        | .unauthorized => (.ok (.authFailure 401 unauthorizedMessage), [])
        | .serverError => (.ok .authServerError, [])
        | .success retrievedUser =>
          -- the nested middleware attached retrievedUser to req.user
          if isAdministrator retrievedUser then (.ok (.nextCalled (some retrievedUser)), [])
          else (.ok (.denied 403 deniedMessage), [])
      else (.ok (.nextCalled req.user), [])
    else
      -- Only an administrator can access information regarding all users
      match req.user with
      | none => (.error .typeError, [])
      | some user =>
        if isAdministrator user then (.ok (.nextCalled (some user)), [])
        else (.ok (.denied 403 deniedMessage), [])
  | some ResourceKind.SINGLE_USER =>
    -- Users can't change their account type, only administrators
    if intent = "PUT" ∧ req.body.type.isSome = true then
      match req.user with
      | none => (.error .typeError, [])
      | some user =>
        if isAdministrator user then (.ok (.nextCalled (some user)), [])
        else (.ok (.denied 403 deniedMessage), [])
    else
      -- The user himself or an administrator
      match req.user with
      | none => (.error .typeError, [])
      | some user =>
        if req.params.userId = user.id ∨ isAdministrator user = true then
          (.ok (.nextCalled (some user)), [])
        else (.ok (.denied 403 deniedMessage), [])
  | some ResourceKind.SINGLE_ADDRESS =>
    match req.user with
    | none => (.error .typeError, [])
    | some user =>
      if isAdministrator user then (.ok (.nextCalled (some user)), [])
      else
        -- the address must belong to the user accessing own data
        let userAddressIDs := user.Address.map (fun addressObject => addressObject.id)
        if req.params.userId = user.id ∧ userAddressIDs.contains req.params.addressId = true then
          (.ok (.nextCalled (some user)), [])
        else (.ok (.denied 403 deniedMessage), [])
  | some ResourceKind.ALL_ADDRESSES =>
    match req.user with
    | none => (.error .typeError, [])
    | some user =>
      if req.params.userId = user.id ∨ isAdministrator user = true then
        (.ok (.nextCalled (some user)), [])
      else (.ok (.denied 403 deniedMessage), [])
  | some ResourceKind.ALL_NOTIFICATIONS =>
    if intent = "GET" then
      match req.user with
      | none => (.error .typeError, [])
      | some user =>
        if req.params.userId = user.id ∨ isAdministrator user = true then
          (.ok (.nextCalled (some user)), [])
        else (.ok (.denied 403 deniedMessage), [])
    else if intent = "PUT" then
      match req.user with
      | none => (.error .typeError, [])
      | some user =>
        if req.params.userId = user.id then (.ok (.nextCalled (some user)), [])
        else (.ok (.denied 403 deniedMessage), [])
    else (.ok (.denied 403 deniedMessage), [])
  | some ResourceKind.SINGLE_NOTIFICATION =>
    if intent = "PUT" then
      match req.user with
      | none => (.error .typeError, [])
      | some user =>
        if req.params.userId = user.id then (.ok (.nextCalled (some user)), [])
        else (.ok (.denied 403 deniedMessage), [])
    else (.ok (.denied 403 deniedMessage), [])
  | some ResourceKind.ALL_USER_ORDERS =>
    if intent = "POST" then
      match req.user with
      | none => (.error .typeError, [])
      | some user =>
        if req.params.userId = user.id ∧ isConsumer user = true then
          (.ok (.nextCalled (some user)), [])
        else (.ok (.denied 403 deniedMessage), [])
    else if intent = "GET" then
      match req.user with
      | none => (.error .typeError, [])
      | some user =>
        if req.params.userId = user.id ∨ isAdministrator user = true then
          (.ok (.nextCalled (some user)), [])
        else (.ok (.denied 403 deniedMessage), [])
    else (.ok (.denied 403 deniedMessage), [])
  | some ResourceKind.ALL_ORDERS =>
    -- As long as they're authenticated, anyone can access ALL_ORDERS
    (.ok (.nextCalled req.user), [])
  | some ResourceKind.SINGLE_ORDER =>
    if intent = "GET" then
      match persistence.checkUserOrderRelationship req.user req.params.orderId with
      | .error e => (.error e, [.order req.user req.params.orderId])
      | .ok true => (.ok (.nextCalled req.user), [.order req.user req.params.orderId])
      | .ok false => (.ok (.denied 403 deniedMessage), [.order req.user req.params.orderId])
    else (.ok (.denied 403 deniedMessage), [])
  | some ResourceKind.SINGLE_ORDER_ITEM =>
    if intent = "PUT" then
      match persistence.checkUserOrderRelationship req.user req.params.orderId with
      | .error e => (.error e, [.order req.user req.params.orderId])
      | .ok false =>
        (.ok (.denied 403 deniedMessage), [.order req.user req.params.orderId])
      | .ok true =>
        -- also checking if the item they're attempting to update belongs to them
        match persistence.checkUserItemRelationship req.user req.params.orderId req.params.itemId with
        | .error e =>
          (.error e,
            [.order req.user req.params.orderId,
             .item req.user req.params.orderId req.params.itemId])
        | .ok false =>
          (.ok (.denied 403 deniedMessage),
            [.order req.user req.params.orderId,
             .item req.user req.params.orderId req.params.itemId])
        | .ok true =>
          (.ok (.nextCalled req.user),
            [.order req.user req.params.orderId,
             .item req.user req.params.orderId req.params.itemId])
    else (.ok (.denied 403 deniedMessage), [])
  | some ResourceKind.ALL_CATEGORIES =>
    match req.user with
    | none => (.error .typeError, [])
    | some user =>
      if isAdministrator user then (.ok (.nextCalled (some user)), [])
      else (.ok (.denied 403 deniedMessage), [])
  | some ResourceKind.SINGLE_CATEGORY =>
    match req.user with
    | none => (.error .typeError, [])
    | some user =>
      if isAdministrator user then (.ok (.nextCalled (some user)), [])
      else (.ok (.denied 403 deniedMessage), [])
  | some ResourceKind.ALL_CART_ITEMS =>
    match req.user with
    | none => (.error .typeError, [])
    | some user =>
      if req.params.userId = user.id ∧ isConsumer user = true then
        (.ok (.nextCalled (some user)), [])
      else (.ok (.denied 403 deniedMessage), [])
  | some ResourceKind.SINGLE_CART_ITEM =>
    match req.user with
    | none => (.error .typeError, [])
    | some user =>
      if req.params.userId = user.id ∧ isConsumer user = true then
        (.ok (.nextCalled (some user)), [])
      else (.ok (.denied 403 deniedMessage), [])
  | some ResourceKind.ALL_WISHLIST_ITEMS =>
    match req.user with
    | none => (.error .typeError, [])
    | some user =>
      if req.params.userId = user.id ∧ isConsumer user = true then
        (.ok (.nextCalled (some user)), [])
      else (.ok (.denied 403 deniedMessage), [])
  | some ResourceKind.SINGLE_WISHLIST_ITEM =>
    match req.user with
    | none => (.error .typeError, [])
    | some user =>
      if req.params.userId = user.id ∧ isConsumer user = true then
        (.ok (.nextCalled (some user)), [])
      else (.ok (.denied 403 deniedMessage), [])
  | _ => (.ok (.denied 403 deniedMessage), [])

end Authorization

/-- The authorization middleware called `next()` (an ALLOW decision). -/
def allows (r : Except JsError CheckResult × List OracleCall) : Prop :=
  ∃ u, r.1 = Except.ok (CheckResult.nextCalled u)

/-- The authorization middleware sent its own 403 rejection. -/
def denies403 (r : Except JsError CheckResult × List OracleCall) : Prop :=
  r.1 = Except.ok (CheckResult.denied 403 deniedMessage)

/-- Pairs of resource kind and method for which the switch has a rule able to
reach `next()`: kinds whose case body branches on the method only reach an
allow for the listed methods; the other kinds' rules apply to all methods;
`SINGLE_PRODUCT` has no case at all, and `none` only the default. -/
def hasRule (kind : Option ResourceKind) (intent : String) : Bool :=
  match kind with
  | some ResourceKind.ALL_USERS => true
  | some ResourceKind.SINGLE_USER => true
  | some ResourceKind.ALL_ADDRESSES => true
  | some ResourceKind.SINGLE_ADDRESS => true
  | some ResourceKind.ALL_NOTIFICATIONS => intent == "GET" || intent == "PUT"
  | some ResourceKind.SINGLE_NOTIFICATION => intent == "PUT"
  | some ResourceKind.ALL_USER_ORDERS => intent == "POST" || intent == "GET"
  | some ResourceKind.ALL_ORDERS => true
  | some ResourceKind.SINGLE_ORDER => intent == "GET"
  | some ResourceKind.SINGLE_ORDER_ITEM => intent == "PUT"
  | some ResourceKind.ALL_CATEGORIES => true
  | some ResourceKind.SINGLE_CATEGORY => true
  | some ResourceKind.ALL_CART_ITEMS => true
  | some ResourceKind.SINGLE_CART_ITEM => true
  | some ResourceKind.ALL_WISHLIST_ITEMS => true
  | some ResourceKind.SINGLE_WISHLIST_ITEM => true
  | some ResourceKind.SINGLE_PRODUCT => false
  | none => false

/-! ### Sample collaborators and requests used by witnesses -/

/-- A relationship oracle answering `true` to every query. -/
def alwaysRelated : Persistence :=
  { checkUserOrderRelationship := fun _ _ => .ok true
    checkUserItemRelationship := fun _ _ _ => .ok true }

/-- A relationship oracle answering `false` to every query. -/
def neverRelated : Persistence :=
  { checkUserOrderRelationship := fun _ _ => .ok false
    checkUserItemRelationship := fun _ _ _ => .ok false }

/-- An authentication environment with no valid bearer token. -/
def noTokenEnv : AuthEnv := { tokenUser := none, getUserByID := fun _ => .ok none }

/-- An administrator identity. -/
def adminUser : User := { id := 1, type := "ADMINISTRATOR", Address := [] }

/-- The consumer identity of the specification's address scenario. -/
def consumerFive : User := { id := 5, type := "CONSUMER", Address := [⟨9⟩, ⟨12⟩] }

/-- An authentication environment resolving to the administrator. -/
def adminEnv : AuthEnv :=
  { tokenUser := some ⟨1⟩, getUserByID := fun _ => .ok (some adminUser) }

/-- Request builder used by witnesses. -/
def mkReq (method baseUrl routePath : String) (userId addressId orderId itemId : Int)
    (bodyType : Option String) (user : Option User) : Request :=
  { method := method, baseUrl := baseUrl, routePath := routePath,
    params := { userId := userId, addressId := addressId, orderId := orderId, itemId := itemId },
    body := { type := bodyType }, user := user }

/-! ### Claim theorems -/

/-- C1: for every request whose route is in the table but whose method has
no allow rule under the classified kind, and for every request whose route
is not in the table, the authorization check sends the 403 rejection with
the fixed message, never calls `next()`, and consults no oracle — for every
caller identity (including administrators) and every collaborator. -/
theorem check_fail_closed_default (p : Persistence) (env : AuthEnv) (req : Request)
    (h : hasRule (resourceIdentification (req.baseUrl ++ req.routePath)) req.method = false) :
    Authorization.check p env req = (Except.ok (CheckResult.denied 403 deniedMessage), []) := by
  cases hk : resourceIdentification (req.baseUrl ++ req.routePath) with
  | none => simp only [Authorization.check, hk]
  | some k =>
    rw [hk] at h
    cases k <;> simp only [hasRule] at h <;>
      simp only [Authorization.check, hk] <;> simp_all

/-- C1 witness: a `PUT` on `/store/orders/:orderId` (kind `SINGLE_ORDER`,
which only rules `GET`) is denied even for an administrator. -/
theorem check_fail_closed_default_witness :
    hasRule (resourceIdentification ("/store/orders" ++ "/:orderId")) "PUT" = false ∧
    Authorization.check alwaysRelated noTokenEnv
        (mkReq "PUT" "/store/orders" "/:orderId" 1 0 7 0 none (some adminUser)) =
      (Except.ok (CheckResult.denied 403 deniedMessage), []) :=
  ⟨by decide, check_fail_closed_default _ _ _ (by decide)⟩

/-- C10: the route table maps `/store/products/:productId` to
`SINGLE_PRODUCT`, and since the dispatch switch has no case for that kind,
every request classified `SINGLE_PRODUCT` falls to the default and is
denied with the 403 rejection, for every method, caller (administrators
included) and collaborator. -/
theorem single_product_always_denied :
    resourceIdentification "/store/products/:productId" = some ResourceKind.SINGLE_PRODUCT ∧
    ∀ (p : Persistence) (env : AuthEnv) (req : Request),
      resourceIdentification (req.baseUrl ++ req.routePath) = some ResourceKind.SINGLE_PRODUCT →
      Authorization.check p env req = (Except.ok (CheckResult.denied 403 deniedMessage), []) := by
  refine ⟨by decide, ?_⟩
  intro p env req hk
  simp only [Authorization.check, hk]

/-- C10 witness: a `GET` on `/store/products/:productId` by an
administrator is denied. -/
theorem single_product_always_denied_witness :
    Authorization.check alwaysRelated noTokenEnv
        (mkReq "GET" "/store/products" "/:productId" 1 0 0 0 none (some adminUser)) =
      (Except.ok (CheckResult.denied 403 deniedMessage), []) :=
  single_product_always_denied.2 _ _ _ (by decide)

/-- C8: whenever the authorization check sends its own rejection, that
rejection is status 403 with the fixed message body, regardless of
resource kind, rule, method or caller. -/
theorem denial_response_uniform (p : Persistence) (env : AuthEnv) (req : Request)
    (s : Nat) (b : String)
    (h : (Authorization.check p env req).1 = Except.ok (CheckResult.denied s b)) :
    s = 403 ∧ b = deniedMessage := by
  rcases hres : Authorization.check p env req with ⟨r, t⟩
  rw [hres] at h
  cases hk : resourceIdentification (req.baseUrl ++ req.routePath) with
  | none =>
    simp only [Authorization.check, hk] at hres
    simp_all
  | some k =>
    cases k <;> simp only [Authorization.check, hk] at hres <;>
      (repeat' split at hres) <;> simp_all

/-- C8 witness: a concrete denial (non-admin listing all users) carries
exactly status 403 and the fixed message. -/
theorem denial_response_uniform_witness : (403 : Nat) = 403 ∧ deniedMessage = deniedMessage :=
  denial_response_uniform alwaysRelated noTokenEnv
    (mkReq "GET" "/user/" "" 5 0 0 0 none (some consumerFive)) 403 deniedMessage (by decide)

/-- C2: for a POST classified `ALL_USERS`: when the body's `type` equals
`ADMINISTRATOR`, `next()` is called iff the nested authentication resolves
a caller whose role is ADMINISTRATOR (caller absent or non-admin never
reaches `next()`); when the body's `type` is anything else (or absent),
`next()` is called unconditionally, even with no caller identity. -/
theorem all_users_post_admin_conditional (p : Persistence) (env : AuthEnv) (req : Request)
    (hroute : resourceIdentification (req.baseUrl ++ req.routePath) =
      some ResourceKind.ALL_USERS)
    (hm : req.method = "POST") :
    (req.body.type = some "ADMINISTRATOR" →
      (allows (Authorization.check p env req) ↔
        ∃ u, Authentication.check env = AuthOutcome.success u ∧ isAdministrator u = true)) ∧
    (req.body.type ≠ some "ADMINISTRATOR" →
      Authorization.check p env req = (Except.ok (CheckResult.nextCalled req.user), [])) := by
  constructor
  · intro hb
    simp only [Authorization.check, hroute, hm, hb, allows]
    cases hac : Authentication.check env with
    | success u => by_cases hadm : isAdministrator u <;> simp_all
    | unauthorized => simp
    | serverError => simp
  · intro hb
    simp only [Authorization.check, hroute, hm]
    simp [hb]

/-- C2 witness: with an administrator body field, an authenticated
administrator is allowed through; with a non-admin body field, an
anonymous signup is allowed through unconditionally. -/
theorem all_users_post_admin_conditional_witness :
    allows (Authorization.check alwaysRelated adminEnv
      (mkReq "POST" "/user/" "" 0 0 0 0 (some "ADMINISTRATOR") none)) ∧
    Authorization.check alwaysRelated noTokenEnv
        (mkReq "POST" "/user/" "" 0 0 0 0 (some "CONSUMER") none) =
      (Except.ok (CheckResult.nextCalled none), []) :=
  ⟨((all_users_post_admin_conditional _ _ _ (by decide) rfl).1 rfl).mpr
      ⟨adminUser, rfl, by decide⟩,
   (all_users_post_admin_conditional _ _ _ (by decide) rfl).2 (by decide)⟩

/-- C4: for a `SINGLE_USER` request by a resolved caller, with method GET
or DELETE, or PUT whose body carries no `type` field: `next()` is called
iff `routeParams.userId` equals the caller's id or the caller is an
administrator; otherwise the 403 rejection is sent. -/
theorem single_user_self_or_admin (p : Persistence) (env : AuthEnv) (req : Request) (u : User)
    (hroute : resourceIdentification (req.baseUrl ++ req.routePath) =
      some ResourceKind.SINGLE_USER)
    (hu : req.user = some u)
    (hm : req.method = "GET" ∨ req.method = "DELETE" ∨
      (req.method = "PUT" ∧ req.body.type = none)) :
    (allows (Authorization.check p env req) ↔
      (req.params.userId = u.id ∨ isAdministrator u = true)) ∧
    (¬(req.params.userId = u.id ∨ isAdministrator u = true) →
      denies403 (Authorization.check p env req)) := by
  have hcond : ¬(req.method = "PUT" ∧ req.body.type.isSome = true) := by
    rcases hm with h | h | ⟨h1, h2⟩
    · simp [h]
    · simp [h]
    · simp [h2]
  constructor
  · simp only [Authorization.check, hroute, hu, allows]
    rw [if_neg hcond]
    by_cases hc : req.params.userId = u.id ∨ isAdministrator u = true <;> simp [hc]
  · intro hc
    simp only [Authorization.check, hroute, hu, denies403]
    rw [if_neg hcond]
    simp [hc]

/-- C4 witness: the consumer with id 5 may GET `/user/5` (owner), and is
denied GET `/user/7` (neither owner nor administrator). -/
theorem single_user_self_or_admin_witness :
    allows (Authorization.check alwaysRelated noTokenEnv
      (mkReq "GET" "/user" "/:userId" 5 0 0 0 none (some consumerFive))) ∧
    denies403 (Authorization.check alwaysRelated noTokenEnv
      (mkReq "GET" "/user" "/:userId" 7 0 0 0 none (some consumerFive))) :=
  ⟨((single_user_self_or_admin _ _ _ _ (by decide) rfl (Or.inl rfl)).1).mpr
      (Or.inl (by decide)),
   (single_user_self_or_admin _ _ _ _ (by decide) rfl (Or.inl rfl)).2 (by decide)⟩

/-- C5: for a `SINGLE_USER` PUT whose body carries a `type` field, by a
resolved caller: `next()` is called iff the caller is an administrator,
ownership notwithstanding; a non-administrator (including the owner) gets
the 403 rejection. -/
theorem single_user_put_type_admin_only (p : Persistence) (env : AuthEnv) (req : Request)
    (u : User)
    (hroute : resourceIdentification (req.baseUrl ++ req.routePath) =
      some ResourceKind.SINGLE_USER)
    (hu : req.user = some u)
    (hm : req.method = "PUT")
    (hb : req.body.type.isSome = true) :
    (allows (Authorization.check p env req) ↔ isAdministrator u = true) ∧
    (isAdministrator u = false → denies403 (Authorization.check p env req)) := by
  have hcond : req.method = "PUT" ∧ req.body.type.isSome = true := ⟨hm, hb⟩
  constructor
  · simp only [Authorization.check, hroute, hu, allows]
    rw [if_pos hcond]
    by_cases hadm : isAdministrator u <;> simp [hadm]
  · intro hadm
    simp only [Authorization.check, hroute, hu, denies403]
    rw [if_pos hcond]
    simp [hadm]

/-- C5 witness: the consumer with id 5 updating their own account `/user/5`
with a `type` field in the body is denied; an administrator doing the same
is allowed. -/
theorem single_user_put_type_admin_only_witness :
    denies403 (Authorization.check alwaysRelated noTokenEnv
      (mkReq "PUT" "/user" "/:userId" 5 0 0 0 (some "SUPPLIER") (some consumerFive))) ∧
    allows (Authorization.check alwaysRelated noTokenEnv
      (mkReq "PUT" "/user" "/:userId" 5 0 0 0 (some "SUPPLIER") (some adminUser))) :=
  ⟨(single_user_put_type_admin_only _ _ _ _ (by decide) rfl rfl (by decide)).2 (by decide),
   ((single_user_put_type_admin_only _ _ _ _ (by decide) rfl rfl (by decide)).1).mpr
     (by decide)⟩

/-- C6: for a cart or wishlist request (`ALL_CART_ITEMS`,
`SINGLE_CART_ITEM`, `ALL_WISHLIST_ITEMS`, `SINGLE_WISHLIST_ITEM`) by a
resolved caller: `next()` is called iff `routeParams.userId` equals the
caller's id and the caller's role is CONSUMER; any caller whose role is
not CONSUMER — administrators included — gets the 403 rejection even when
the owner id matches. -/
theorem cart_wishlist_owner_and_consumer (p : Persistence) (env : AuthEnv) (req : Request)
    (u : User) (k : ResourceKind)
    (hroute : resourceIdentification (req.baseUrl ++ req.routePath) = some k)
    (hk : k = ResourceKind.ALL_CART_ITEMS ∨ k = ResourceKind.SINGLE_CART_ITEM ∨
      k = ResourceKind.ALL_WISHLIST_ITEMS ∨ k = ResourceKind.SINGLE_WISHLIST_ITEM)
    (hu : req.user = some u) :
    (allows (Authorization.check p env req) ↔
      (req.params.userId = u.id ∧ isConsumer u = true)) ∧
    (isConsumer u = false → denies403 (Authorization.check p env req)) := by
  rcases hk with h|h|h|h <;> subst h <;>
    exact ⟨by
        simp only [Authorization.check, hroute, hu, allows]
        by_cases hc : req.params.userId = u.id ∧ isConsumer u = true <;> simp [hc],
      fun hcons => by
        simp only [Authorization.check, hroute, hu, denies403]
        simp [hcons]⟩

/-- C6 witness: an administrator with matching owner id is denied
`GET /user/1/cart`, while the consumer owner is allowed
`GET /user/5/cart`. -/
theorem cart_wishlist_owner_and_consumer_witness :
    denies403 (Authorization.check alwaysRelated noTokenEnv
      (mkReq "GET" "/user/:userId" "/cart" 1 0 0 0 none (some adminUser))) ∧
    allows (Authorization.check alwaysRelated noTokenEnv
      (mkReq "GET" "/user/:userId" "/cart" 5 0 0 0 none (some consumerFive))) :=
  ⟨(cart_wishlist_owner_and_consumer _ _ _ _ _ (by decide) (Or.inl rfl) rfl).2 (by decide),
   ((cart_wishlist_owner_and_consumer _ _ _ _ _ (by decide) (Or.inl rfl) rfl).1).mpr
     (by decide)⟩

/-- C7: for a `SINGLE_ADDRESS` request by a resolved caller: an
administrator is always allowed; a non-administrator is allowed iff
`routeParams.userId` equals the caller's id and the numeric
`routeParams.addressId` is among the ids of the caller's own addresses. -/
theorem single_address_ownership_membership (p : Persistence) (env : AuthEnv) (req : Request)
    (u : User)
    (hroute : resourceIdentification (req.baseUrl ++ req.routePath) =
      some ResourceKind.SINGLE_ADDRESS)
    (hu : req.user = some u) :
    (isAdministrator u = true → allows (Authorization.check p env req)) ∧
    (isAdministrator u = false →
      (allows (Authorization.check p env req) ↔
        (req.params.userId = u.id ∧
          (u.Address.map (fun addressObject => addressObject.id)).contains
            req.params.addressId = true))) := by
  constructor
  · intro hadm
    simp only [Authorization.check, hroute, hu, allows]
    simp [hadm]
  · intro hadm
    simp only [Authorization.check, hroute, hu, allows, hadm]
    by_cases hc : req.params.userId = u.id ∧
        (u.Address.map (fun addressObject => addressObject.id)).contains
          req.params.addressId = true
    · rw [if_pos hc]
      exact iff_of_true ⟨some u, rfl⟩ hc
    · rw [if_neg hc]
      exact iff_of_false (by rintro ⟨v, hv⟩; simp at hv) hc

/-- C7 witness: the specification's scenario — caller id 5 (CONSUMER,
addresses 9 and 12): DELETE `/user/5/addresses/9` is allowed,
`/user/5/addresses/99` is denied. -/
theorem single_address_ownership_membership_witness :
    allows (Authorization.check alwaysRelated noTokenEnv
      (mkReq "DELETE" "/user/:userId/addresses" "/:addressId" 5 9 0 0 none
        (some consumerFive))) ∧
    ¬ allows (Authorization.check alwaysRelated noTokenEnv
      (mkReq "DELETE" "/user/:userId/addresses" "/:addressId" 5 99 0 0 none
        (some consumerFive))) := by
  constructor
  · exact ((single_address_ownership_membership _ _ _ _ (by decide) rfl).2
      (by decide)).mpr (by decide)
  · intro ha
    have h := ((single_address_ownership_membership _ _ _ _ (by decide) rfl).2
      (by decide)).mp ha
    exact absurd h.2 (by decide)

/-- C3: for a PUT classified `SINGLE_ORDER_ITEM`: `next()` is called iff
the order-relationship query answers `true` and the item-relationship
query answers `true`; and when the order-relationship query answers
`false`, the recorded oracle trace contains only the order call — the
item-relationship query is never invoked. -/
theorem single_order_item_put_two_step (p : Persistence) (env : AuthEnv) (req : Request)
    (hroute : resourceIdentification (req.baseUrl ++ req.routePath) =
      some ResourceKind.SINGLE_ORDER_ITEM)
    (hm : req.method = "PUT") :
    (allows (Authorization.check p env req) ↔
      (p.checkUserOrderRelationship req.user req.params.orderId = Except.ok true ∧
       p.checkUserItemRelationship req.user req.params.orderId req.params.itemId =
         Except.ok true)) ∧
    (p.checkUserOrderRelationship req.user req.params.orderId = Except.ok false →
      (Authorization.check p env req).2 = [OracleCall.order req.user req.params.orderId]) := by
  constructor
  · simp only [Authorization.check, hroute, hm, allows]
    cases h1 : p.checkUserOrderRelationship req.user req.params.orderId with
    | error e => simp [h1]
    | ok b =>
      cases b
      · simp [h1]
      · cases h2 : p.checkUserItemRelationship req.user req.params.orderId
            req.params.itemId with
        | error e => simp [h1, h2]
        | ok b2 => cases b2 <;> simp [h1, h2]
  · intro h1
    simp only [Authorization.check, hroute, hm]
    simp [h1]

/-- C3 witness: with an oracle answering `true` to both queries the PUT on
`/store/orders/7/4` is allowed; with an oracle answering `false` the trace
holds exactly the one order call, so the item query was never invoked. -/
theorem single_order_item_put_two_step_witness :
    allows (Authorization.check alwaysRelated noTokenEnv
      (mkReq "PUT" "/store/orders" "/:orderId/:itemId" 0 0 7 4 none (some consumerFive))) ∧
    (Authorization.check neverRelated noTokenEnv
        (mkReq "PUT" "/store/orders" "/:orderId/:itemId" 0 0 7 4 none
          (some consumerFive))).2 =
      [OracleCall.order (some consumerFive) 7] :=
  ⟨((single_order_item_put_two_step _ _ _ (by decide) rfl).1).mpr ⟨rfl, rfl⟩,
   (single_order_item_put_two_step _ _ _ (by decide) rfl).2 rfl⟩

/-- An oracle whose awaited promises always reject. -/
def failingOracle : Persistence :=
  { checkUserOrderRelationship := fun _ _ =>
      .error (.collabFailure "relationship query failed")
    checkUserItemRelationship := fun _ _ _ =>
      .error (.collabFailure "relationship query failed") }

/-- A `GET /store/orders/7` request by the consumer. -/
def orderGetReq : Request :=
  mkReq "GET" "/store/orders" "/:orderId" 0 0 7 0 none (some consumerFive)

/-- C9 counterexample: at a concrete `SINGLE_ORDER` GET whose
order-relationship query fails, the evaluation does **not** produce the
403 DENY rejection (and does not allow either): the failure propagates out
of the middleware as a rejected promise (`Except.error`), contradicting
the claim that a collaborator failure results in a DENY decision and that
the evaluator never throws past its own boundary. -/
theorem check_collab_failure_escapes_cex :
    (Authorization.check failingOracle noTokenEnv orderGetReq).1 =
      Except.error (JsError.collabFailure "relationship query failed") ∧
    ¬ denies403 (Authorization.check failingOracle noTokenEnv orderGetReq) ∧
    ¬ allows (Authorization.check failingOracle noTokenEnv orderGetReq) := by
  have he : (Authorization.check failingOracle noTokenEnv orderGetReq).1 =
      Except.error (JsError.collabFailure "relationship query failed") := by decide
  refine ⟨he, ?_, ?_⟩
  · intro hd
    simp only [denies403] at hd
    rw [he] at hd
    cases hd
  · rintro ⟨u, hu⟩
    rw [he] at hu
    cases hu

/-- C9 amended: whenever the evaluation consulted the relationship oracle
(the recorded trace is nonempty) and every oracle query fails with `e`,
the middleware's outcome is the propagated failure `Except.error e` — in
particular the failure never results in an ALLOW and is not converted to
the 403 DENY rejection; it escapes the evaluator's boundary as a rejected
promise. -/
theorem check_collab_failure_propagates (p : Persistence) (env : AuthEnv) (req : Request)
    (e : JsError)
    (h1 : ∀ u o, p.checkUserOrderRelationship u o = Except.error e)
    (h2 : ∀ u o i, p.checkUserItemRelationship u o i = Except.error e)
    (hcons : (Authorization.check p env req).2 ≠ []) :
    (Authorization.check p env req).1 = Except.error e := by
  rcases hres : Authorization.check p env req with ⟨r, t⟩
  rw [hres] at hcons
  cases hk : resourceIdentification (req.baseUrl ++ req.routePath) with
  | none =>
    simp only [Authorization.check, hk] at hres
    simp_all
  | some k =>
    cases k <;> simp only [Authorization.check, hk, h1, h2] at hres <;>
      (repeat' split at hres) <;> simp_all

/-- C9 amended witness: at the concrete failing oracle and `SINGLE_ORDER`
GET request, the outcome is the propagated failure. -/
theorem check_collab_failure_propagates_witness :
    (Authorization.check failingOracle noTokenEnv orderGetReq).1 =
      Except.error (JsError.collabFailure "relationship query failed") :=
  check_collab_failure_propagates _ _ _ _ (fun _ _ => rfl) (fun _ _ _ => rfl) (by decide)
